import Mathlib

/-!
Verification of the UDP fan controller (homebridge-udpfan).

This file shallowly embeds the core of `src/unnamed/part_000` — the
retrying command dispatcher (`sendCommand`), the response parser embedded
in its `handleMessage` closure, the confirmation coordinator
(`sendCommandWithConfirmation`), the state cache (`updateCache`,
`isCacheValid`) and the four facade operations (`getSpeed`, `setSpeed`,
`getActive`, `setActive`) — and proves or refutes the specification's
claims about them.

Modelling conventions:
- JS numbers are embedded as `Int` where the source only ever holds
  integers (speed levels, flags, millisecond times) and as `ℚ` where the
  source performs the `33.33` unit conversions; all the conversion
  arithmetic in the source is exact in `ℚ` and lands far from rounding
  boundaries, so this does not change any observable result.
- The asynchronous socket is abstracted by an environment function giving
  the observable outcome of each attempt (send error callback, deadline
  expiry, or a reply datagram): at most one of these settles the promise
  of one attempt in the source.
- On the `expectResponse = false` path the source calls `resolve()`
  synchronously in the promise executor, before the `socket.send`
  callback can run, so that promise always fulfils with no value; the
  background resends that a late send error can still schedule never
  affect any observable result and are not modelled.
-/

namespace UDPFan

/-! ## Response parser

The parser is the body of `handleMessage`:
`msg.toString().split(',')[0]` followed by `parseInt(response)` and an
`isNaN` check. `jsParseInt` embeds ECMAScript `parseInt` with no radix
argument: strip leading whitespace, read an optional sign, detect an
`0x`/`0X` prefix (radix 16, else 10), then take the longest prefix of
digits of that radix; no digits means NaN.
-/

/-- Whitespace characters stripped by `parseInt` (ASCII subset of the
ECMAScript WhiteSpace/LineTerminator classes; the device protocol is
ASCII). -/
def jsIsWhite (c : Char) : Bool :=
  c = ' ' || c = '\t' || c = '\n' || c = '\r' || c = Char.ofNat 11 || c = Char.ofNat 12

/-- Numeric value of a digit character under the given radix, if any
(letters count from 10, as in `parseInt`). -/
def digitValue (radix : Nat) (c : Char) : Option Nat :=
  let v : Option Nat :=
    if '0' ≤ c ∧ c ≤ '9' then some (c.toNat - '0'.toNat)
    else if 'a' ≤ c ∧ c ≤ 'z' then some (c.toNat - 'a'.toNat + 10)
    else if 'A' ≤ c ∧ c ≤ 'Z' then some (c.toNat - 'A'.toNat + 10)
    else none
  match v with
  | some d => if d < radix then some d else none
  | none => none

/-- Longest prefix of digits valid under `radix`, as numeric values. -/
def takeDigits (radix : Nat) : List Char → List Nat
  | [] => []
  | c :: cs =>
    match digitValue radix c with
    | some d => d :: takeDigits radix cs
    | none => []

/-- Base-`radix` value of a digit-value list, most significant first. -/
def digitsToNat (radix : Nat) (ds : List Nat) : Nat :=
  ds.foldl (fun a d => a * radix + d) 0

/-- ECMAScript `parseInt(s)` (radix argument absent): `none` models NaN. -/
def jsParseInt (s : String) : Option Int :=
  let cs := s.data.dropWhile jsIsWhite
  let signAndRest : Int × List Char :=
    match cs with
    | '-' :: rest => (-1, rest)
    | '+' :: rest => (1, rest)
    | _ => (1, cs)
  let radixAndRest : Nat × List Char :=
    match signAndRest.2 with
    | '0' :: 'x' :: rest => (16, rest)
    | '0' :: 'X' :: rest => (16, rest)
    | _ => (10, signAndRest.2)
  let ds := takeDigits radixAndRest.1 radixAndRest.2
  if ds.isEmpty then none
  else some (signAndRest.1 * (digitsToNat radixAndRest.1 ds : Int))

/-- JS `msg.split(',')[0]`: the text before the first comma. -/
def firstField (msg : String) : String :=
  String.mk (msg.data.takeWhile (fun c => c ≠ ','))

/-- The parse performed by `handleMessage`:
`parseInt(msg.toString().split(',')[0])`, `none` when `isNaN(value)`
fires the `Invalid response from device` rejection. -/
def parseResponse (msg : String) : Option Int :=
  jsParseInt (firstField msg)

/-- Modelled from the spec (§4.2 wording, for comparison with the code's
parser): the first field "is a valid integer" — an optional sign followed
by one or more decimal digits and nothing else. -/
def specIsValidInteger (s : String) : Bool :=
  match s.data with
  | '-' :: ds => !ds.isEmpty && ds.all Char.isDigit
  | '+' :: ds => !ds.isEmpty && ds.all Char.isDigit
  | ds => !ds.isEmpty && ds.all Char.isDigit

/-! ## Command dispatcher

`sendCommand(message, expectResponse, retryCount)` from the source. The
observable outcome of each attempt is supplied by `env : Nat →
AttemptOutcome` indexed by the attempt ordinal (`retryCount` in the
source). The source recursion increments `retryCount` while
`retryCount < maxRetries`; `sendCommandAux` carries the equal measure
`remaining = maxRetries - retryCount` structurally so that the
definition computes. -/

/-- Observable outcome of one send-and-wait attempt. -/
inductive AttemptOutcome where
  | sendFail
  | timeoutNoReply
  | reply (msg : String)
  deriving DecidableEq

/-- Terminal dispatch failures (the three rejection sites of
`sendCommand`). -/
inductive DispatchError where
  | sendExhausted
  | timeoutExpired
  | invalidResponse
  deriving DecidableEq

/-- Result of one dispatch: an integer reply value, a valueless success
(`resolve()` with no argument), or a terminal error. -/
inductive DispatchResult where
  | value (v : Int)
  | noValue
  | error (e : DispatchError)
  deriving DecidableEq

/-- Observable trace of a dispatch: its settled result, how many
`socket.send` attempts it made, and the `retryDelay` waits between
consecutive attempts, in order. -/
structure DispatchTrace where
  result : DispatchResult
  sendCount : Nat
  delays : List Int
  deriving DecidableEq

/-- One more attempt was prepended: the trace of the retried call, with
the current attempt's send and the `retryDelay` wait in front. -/
def DispatchTrace.retryAfter (retryDelay : Int) (t : DispatchTrace) : DispatchTrace :=
  { result := t.result, sendCount := t.sendCount + 1, delays := retryDelay :: t.delays }

/-- The body of `sendCommand` at attempt ordinal `retryCount`, with
`remaining = maxRetries - retryCount` carried structurally (the source
guard `retryCount < maxRetries` is exactly `remaining > 0`).

For `expectResponse = false` the promise fulfils with no value
immediately (`resolve()` runs synchronously; see the header note). For
`expectResponse = true`:
- a send error retries while retries remain, else rejects with the send
  error (`reject(err)`);
- deadline expiry retries while retries remain, else rejects with
  `Timeout waiting for response after retries`;
- a reply runs the parser: a number resolves, NaN rejects with
  `Invalid response from device` at once, with no retry. -/
def sendCommandAux (retryDelay : Int) (expectResponse : Bool)
    (env : Nat → AttemptOutcome) : Nat → Nat → DispatchTrace
  | _retryCount, _remaining =>
    if expectResponse = false then
      { result := .noValue, sendCount := 1, delays := [] }
    else
      match env _retryCount, _remaining with
      | .sendFail, remaining + 1 =>
        (sendCommandAux retryDelay expectResponse env (_retryCount + 1) remaining).retryAfter
          retryDelay
      | .sendFail, 0 =>
        { result := .error .sendExhausted, sendCount := 1, delays := [] }
      | .timeoutNoReply, remaining + 1 =>
        (sendCommandAux retryDelay expectResponse env (_retryCount + 1) remaining).retryAfter
          retryDelay
      | .timeoutNoReply, 0 =>
        { result := .error .timeoutExpired, sendCount := 1, delays := [] }
      | .reply msg, _ =>
        match parseResponse msg with
        | some v => { result := .value v, sendCount := 1, delays := [] }
        | none => { result := .error .invalidResponse, sendCount := 1, delays := [] }

/-- Entry point `sendCommand(message, expectResponse)` called from the facade: the
retry loop starts at ordinal 0 with the full `maxRetries` budget. The
message text itself does not influence the dispatcher's control flow, so
it is not a parameter here; the facade records which messages it sends. -/
def sendCommand (maxRetries : Nat) (retryDelay : Int) (expectResponse : Bool)
    (env : Nat → AttemptOutcome) : DispatchTrace :=
  sendCommandAux retryDelay expectResponse env 0 maxRetries

/-! ## Unit conversion

The facade converts between the device's speed levels 0–3 and the host's
percentage via the literal `33.33`, exact in `ℚ` as `3333/100`.
`Math.round(x)` is `⌊x + 1/2⌋` (round half toward positive infinity). -/

/-- The conversion factor `33.33` of the source, exactly. -/
def perUnit : ℚ := 3333 / 100

/-- JS `Math.round`. -/
def jsRound (q : ℚ) : Int := ⌊q + 1 / 2⌋

/-- The speed level `setSpeed` computes from a percentage:
`Math.round(value / 33.33)`. -/
def percentToLevel (value : ℚ) : Int := jsRound (value / perUnit)

/-! ## State cache

The three cache fields of the accessory (`cachedSpeed`, `cachedActive`,
`lastUpdate`) and the two helpers `updateCache` / `isCacheValid`.
Timestamps (`Date.now()`) are milliseconds as `Int`. -/

/-- The accessory's mutable cache state. -/
structure FanState where
  cachedSpeed : Option Int
  cachedActive : Option Int
  lastUpdate : Int
  deriving DecidableEq

/-- Constructor-time cache state: both fields `null`, `lastUpdate = 0`. -/
def initState : FanState :=
  { cachedSpeed := none, cachedActive := none, lastUpdate := 0 }

/-- Source `updateCache(speed)`: writes `cachedSpeed`, the derived
`cachedActive = speed > 0 ? 1 : 0`, and stamps `lastUpdate = Date.now()`. -/
def updateCache (_s : FanState) (now : Int) (speed : Int) : FanState :=
  { cachedSpeed := some speed,
    cachedActive := some (if 0 < speed then 1 else 0),
    lastUpdate := now }

/-- Source `isCacheValid()`: `(Date.now() - this.lastUpdate) < this.cacheTimeout`. -/
def isCacheValid (cacheTimeout : Int) (s : FanState) (now : Int) : Bool :=
  now - s.lastUpdate < cacheTimeout

/-! ## Confirmation coordinator

`sendCommandWithConfirmation(message, expectedValue)`. The status
read-back `await this.sendCommand('s', true)` is abstracted by
`statusLive : Except DispatchError Int` — `.ok v` when that dispatch
resolves with `v`, `.error e` when it rejects after its own internal
retries (the correspondence with `DispatchTrace.result` being `.value v`
respectively `.error e`). Step (a), `await this.sendCommand(message,
false)`, always fulfils (header note), and is recorded in `sends`
together with the step (d) corrective resend of the same message. -/

/-- Observable outcome of one `sendCommandWithConfirmation` call. -/
structure ConfirmOut where
  result : Except DispatchError (Option Int)
  sends : List String
  settleWaits : List Int

def sendCommandWithConfirmation (message : String) (expectedValue : Option Int)
    (statusLive : Except DispatchError Int) : ConfirmOut :=
  match expectedValue with
  | none => { result := .ok none, sends := [message], settleWaits := [] }
  | some expected =>
    match statusLive with
    | .error e => { result := .error e, sends := [message], settleWaits := [100] }
    | .ok actualValue =>
      if actualValue = expected then
        { result := .ok (some actualValue), sends := [message], settleWaits := [100] }
      else
        { result := .ok (some actualValue), sends := [message, message],
          settleWaits := [100] }

/-! ## Facade operations

Each facade operation takes the cache state, the current `Date.now()`,
and the abstracted result of any live status dispatch it performs, and
returns the new cache state together with what the callback receives and
which network traffic happened. -/

/-- Outcome of `getSpeed` / `getActive`: the cache state after the call,
the callback's value (`.ok` for `callback(null, x)`, `.error` for
`callback(err)`), and whether a live status query was dispatched. -/
structure ReadOut (α : Type) where
  state : FanState
  result : Except DispatchError α
  queried : Bool

/-- Source `getSpeed(callback)`: fresh cache short-circuits to
`cachedSpeed * 33.33`; otherwise a live query, written through on
success; on failure the stale cached speed if present, else the error. -/
def getSpeed (cacheTimeout : Int) (s : FanState) (now : Int)
    (live : Except DispatchError Int) : ReadOut ℚ :=
  match s.cachedSpeed, isCacheValid cacheTimeout s now with
  | some v, true => { state := s, result := .ok ((v : ℚ) * perUnit), queried := false }
  | _, _ =>
    match live with
    | .ok speed =>
      { state := updateCache s now speed, result := .ok ((speed : ℚ) * perUnit),
        queried := true }
    | .error e =>
      match s.cachedSpeed with
      | some v => { state := s, result := .ok ((v : ℚ) * perUnit), queried := true }
      | none => { state := s, result := .error e, queried := true }

/-- Source `getActive(callback)`: same caching policy on `cachedActive`; a live
speed is written through and reported as `speed > 0 ? 1 : 0`. -/
def getActive (cacheTimeout : Int) (s : FanState) (now : Int)
    (live : Except DispatchError Int) : ReadOut Int :=
  match s.cachedActive, isCacheValid cacheTimeout s now with
  | some a, true => { state := s, result := .ok a, queried := false }
  | _, _ =>
    match live with
    | .ok speed =>
      { state := updateCache s now speed,
        result := .ok (if 0 < speed then 1 else 0), queried := true }
    | .error e =>
      match s.cachedActive with
      | some a => { state := s, result := .ok a, queried := true }
      | none => { state := s, result := .error e, queried := true }

/-- Outcome of `setSpeed` / `setActive`: new cache state, the callback's
value, and the messages dispatched with `expectResponse = false`
(`setSpeed` delegates its sends to the confirmation coordinator). -/
structure WriteOut where
  state : FanState
  result : Except DispatchError Unit
  sends : List String
  statusQueried : Bool

/-- Source `setSpeed(value, callback)`: converts the percentage with
`Math.round(value / 33.33)`, runs the confirmation coordinator on
`s,<speed>`, and on success calls `updateCache(speed)` — the intended
level, not the coordinator's returned value, which is discarded. -/
def setSpeed (s : FanState) (now : Int) (value : ℚ)
    (statusLive : Except DispatchError Int) : WriteOut :=
  let speed := percentToLevel value
  let c := sendCommandWithConfirmation ("s," ++ toString speed) (some speed) statusLive
  match c.result with
  | .ok _ => { state := updateCache s now speed, result := .ok (), sends := c.sends,
               statusQueried := true }
  | .error e => { state := s, result := .error e, sends := c.sends, statusQueried := true }

/-- Source `setActive(value, callback)`: dispatches `f,<value>` without
awaiting a reply; for `value === 0` caches 0 directly, otherwise issues
a live status query (`'s'`, response expected, recorded in
`statusQueried`) and caches the reported speed. -/
def setActive (s : FanState) (now : Int) (value : Int)
    (statusLive : Except DispatchError Int) : WriteOut :=
  if value = 0 then
    { state := updateCache s now 0, result := .ok (),
      sends := ["f," ++ toString value], statusQueried := false }
  else
    match statusLive with
    | .ok speed =>
      { state := updateCache s now speed, result := .ok (),
        sends := ["f," ++ toString value], statusQueried := true }
    | .error e =>
      { state := s, result := .error e,
        sends := ["f," ++ toString value], statusQueried := true }

/-! ## Lifetime of the cache

Every cache-touching operation of the accessory, as a step function, to
state reachability invariants over whole histories. -/

/-- One facade call with its inputs (timestamp and abstracted live
dispatch outcome). -/
inductive Op where
  | readSpeed (now : Int) (live : Except DispatchError Int)
  | readActive (now : Int) (live : Except DispatchError Int)
  | writeSpeed (now : Int) (value : ℚ) (statusLive : Except DispatchError Int)
  | writeActive (now : Int) (value : Int) (statusLive : Except DispatchError Int)

/-- The cache state after one facade call. -/
def applyOp (cacheTimeout : Int) (s : FanState) : Op → FanState
  | .readSpeed now live => (getSpeed cacheTimeout s now live).state
  | .readActive now live => (getActive cacheTimeout s now live).state
  | .writeSpeed now value statusLive => (setSpeed s now value statusLive).state
  | .writeActive now value statusLive => (setActive s now value statusLive).state

/-- The cache state after a whole history of facade calls, starting from
the constructor's state. -/
def runOps (cacheTimeout : Int) (ops : List Op) : FanState :=
  ops.foldl (applyOp cacheTimeout) initState

/-- Coherence of the two cached fields: whenever a speed is cached, the
cached active flag is 1 exactly when that speed is positive. -/
def cacheCoherent (s : FanState) : Prop :=
  ∀ v, s.cachedSpeed = some v → (s.cachedActive = some 1 ↔ 0 < v)

/-! ## Constructor defaults

`config.maxRetries || 3` and friends: a JS `||` on a numeric option
replaces an absent option and the falsy value 0 alike by the default. -/

/-- The numeric configuration options that take defaults, each absent or
a supplied integer. -/
structure Config where
  maxRetries : Option Int
  retryDelay : Option Int
  timeout : Option Int
  cacheTimeout : Option Int
  deriving DecidableEq

/-- JS `v || d` for a numeric option: absent or falsy (0) gives `d`. -/
def jsOrDefault (v : Option Int) (d : Int) : Int :=
  match v with
  | none => d
  | some x => if x = 0 then d else x

/-- Effective `this.maxRetries`. -/
def effMaxRetries (c : Config) : Int := jsOrDefault c.maxRetries 3

/-- Effective `this.retryDelay`. -/
def effRetryDelay (c : Config) : Int := jsOrDefault c.retryDelay 200

/-- Effective `this.timeout`. -/
def effTimeout (c : Config) : Int := jsOrDefault c.timeout 1000

/-- Effective `this.cacheTimeout`. -/
def effCacheTimeout (c : Config) : Int := jsOrDefault c.cacheTimeout 2000

/-! ## Helper lemmas shared by several claims -/

/-- The conversion factor is positive. -/
lemma perUnit_pos : 0 < perUnit := by norm_num [perUnit]

/-- Rounding an integer is the identity. -/
lemma jsRound_intCast (n : Int) : jsRound (n : ℚ) = n := by
  unfold jsRound
  rw [Int.floor_int_add]
  norm_num

/-- The canonical percentage of a level converts back to that level. -/
lemma percentToLevel_cancel (n : Int) : percentToLevel ((n : ℚ) * perUnit) = n := by
  unfold percentToLevel
  rw [mul_div_cancel_right₀ _ (ne_of_gt perUnit_pos)]
  exact jsRound_intCast n

/-- On a successful status read-back, `setSpeed` writes the cache through
`updateCache` with the intended level it computed from the percentage. -/
lemma setSpeed_state_ok (s : FanState) (now : Int) (value : ℚ) (actualValue : Int) :
    (setSpeed s now value (.ok actualValue)).state =
      updateCache s now (percentToLevel value) := by
  by_cases h : actualValue = percentToLevel value <;>
    simp [setSpeed, sendCommandWithConfirmation, h]

/-- On a successful status read-back, `setSpeed` reports success. -/
lemma setSpeed_result_ok (s : FanState) (now : Int) (value : ℚ) (actualValue : Int) :
    (setSpeed s now value (.ok actualValue)).result = .ok () := by
  by_cases h : actualValue = percentToLevel value <;>
    simp [setSpeed, sendCommandWithConfirmation, h]

/-- Evaluation fact: `Math.round(50 / 33.33)` is 2, the intended level of `setSpeed(50)`. -/
lemma percentToLevel_fifty : percentToLevel 50 = 2 := by
  norm_num [percentToLevel, jsRound, perUnit]

/-- Writing through `updateCache` always establishes cache coherence. -/
lemma cacheCoherent_updateCache (s : FanState) (now speed : Int) :
    cacheCoherent (updateCache s now speed) := by
  intro w hw
  simp only [updateCache, Option.some.injEq] at hw ⊢
  subst hw
  split_ifs with hpos <;> simp [hpos]

/-- Every attempt index seeing a timeout makes the dispatcher resend
`remaining` more times, wait `retryDelay` between sends, and reject with
the timeout error. -/
lemma sendCommandAux_allTimeout (retryDelay : Int) (env : Nat → AttemptOutcome)
    (henv : ∀ n, env n = .timeoutNoReply) :
    ∀ remaining retryCount,
      sendCommandAux retryDelay true env retryCount remaining =
        { result := .error .timeoutExpired, sendCount := remaining + 1,
          delays := List.replicate remaining retryDelay } := by
  intro remaining
  induction remaining with
  | zero =>
    intro retryCount
    unfold sendCommandAux
    rw [henv retryCount]
    simp
  | succ r ih =>
    intro retryCount
    unfold sendCommandAux
    rw [henv retryCount]
    simp [ih (retryCount + 1), DispatchTrace.retryAfter, List.replicate_succ]

/-! ## The claims -/

/-- C10: supplying 0 for any of `maxRetries`, `retryDelay`, `timeout`,
`cacheTimeout` behaves as if the option were absent — the JS `||`
replaces the falsy 0 by the defaults 3, 200, 1000 and 2000 respectively. -/
theorem c10_zero_config_uses_defaults (c : Config) :
    (c.maxRetries = some 0 →
      effMaxRetries c = 3 ∧
        effMaxRetries c = effMaxRetries { c with maxRetries := none }) ∧
    (c.retryDelay = some 0 →
      effRetryDelay c = 200 ∧
        effRetryDelay c = effRetryDelay { c with retryDelay := none }) ∧
    (c.timeout = some 0 →
      effTimeout c = 1000 ∧ effTimeout c = effTimeout { c with timeout := none }) ∧
    (c.cacheTimeout = some 0 →
      effCacheTimeout c = 2000 ∧
        effCacheTimeout c = effCacheTimeout { c with cacheTimeout := none }) := by
  refine ⟨fun h => ?_, fun h => ?_, fun h => ?_, fun h => ?_⟩ <;>
    simp [effMaxRetries, effRetryDelay, effTimeout, effCacheTimeout, jsOrDefault, h]

/-- C10 witness: a configuration supplying 0 everywhere gets all four
defaults. -/
theorem c10_zero_config_uses_defaults_witness :
    effMaxRetries ⟨some 0, some 0, some 0, some 0⟩ = 3 ∧
    effRetryDelay ⟨some 0, some 0, some 0, some 0⟩ = 200 ∧
    effTimeout ⟨some 0, some 0, some 0, some 0⟩ = 1000 ∧
    effCacheTimeout ⟨some 0, some 0, some 0, some 0⟩ = 2000 := by
  have h := c10_zero_config_uses_defaults ⟨some 0, some 0, some 0, some 0⟩
  exact ⟨(h.1 rfl).1, (h.2.1 rfl).1, (h.2.2.1 rfl).1, (h.2.2.2 rfl).1⟩

/-- C2: when every send succeeds but no reply ever arrives before the
deadline, a response-expecting dispatch makes exactly `maxRetries + 1`
send attempts, waits `retryDelay` between consecutive attempts, and
fails with the timeout error. -/
theorem c2_all_timeouts_exhaust_retries (maxRetries : Nat) (retryDelay : Int)
    (env : Nat → AttemptOutcome) (henv : ∀ n, env n = .timeoutNoReply) :
    sendCommand maxRetries retryDelay true env =
      { result := .error .timeoutExpired, sendCount := maxRetries + 1,
        delays := List.replicate maxRetries retryDelay } :=
  sendCommandAux_allTimeout retryDelay env henv maxRetries 0

/-- C2 witness: with the default budget of 3 retries, four sends spaced
by three 200 ms waits, then the timeout error. -/
theorem c2_all_timeouts_exhaust_retries_witness :
    sendCommand 3 200 true (fun _ => .timeoutNoReply) =
      { result := .error .timeoutExpired, sendCount := 3 + 1,
        delays := List.replicate 3 200 } :=
  c2_all_timeouts_exhaust_retries 3 200 (fun _ => .timeoutNoReply) (fun _ => rfl)

/-- C3: with a non-null expected value and a read-back that reports
`actualValue`, the confirmation coordinator sends the command, waits the
fixed 100 ms settle delay, re-issues the command exactly once more if
and only if the read-back differs from the intended state, and returns
the read-back value, not the intended one. -/
theorem c3_confirmation_single_correction (message : String)
    (intendedState actualValue : Int) :
    (sendCommandWithConfirmation message (some intendedState) (.ok actualValue)).result
        = .ok (some actualValue) ∧
    (sendCommandWithConfirmation message (some intendedState) (.ok actualValue)).settleWaits
        = [100] ∧
    (sendCommandWithConfirmation message (some intendedState) (.ok actualValue)).sends
        = (if actualValue = intendedState then [message] else [message, message]) := by
  unfold sendCommandWithConfirmation
  split_ifs <;> simp_all

/-- C1 counterexample: `setSpeed(50)` intends level 2; when the
confirmation read-back reports 1 the call still succeeds, the
coordinator returns the confirmed value 1, yet the cache is written with
the intended 2 — not with the confirmed value as the claim states. -/
theorem c1_counterexample :
    (sendCommandWithConfirmation "s,2" (some 2) (.ok 1)).result = .ok (some 1) ∧
    (setSpeed initState 5000 50 (.ok 1)).result = .ok () ∧
    (setSpeed initState 5000 50 (.ok 1)).state.cachedSpeed = some 2 ∧
    (2 : Int) ≠ 1 := by
  refine ⟨?_, ?_, ?_, by decide⟩
  · simp [sendCommandWithConfirmation]
  · exact setSpeed_result_ok initState 5000 50 1
  · rw [setSpeed_state_ok initState 5000 50 1, percentToLevel_fifty]
    rfl

/-- C1 amended: after a successful `setSpeed(percentage)`, the cache is
written with the intended level `Math.round(percentage / 33.33)`
computed from the input, and the confirmed value returned by the
read-back is discarded. -/
theorem c1_cache_written_with_intended (s : FanState) (now : Int) (value : ℚ)
    (actualValue : Int) :
    (setSpeed s now value (.ok actualValue)).result = .ok () ∧
    (setSpeed s now value (.ok actualValue)).state =
      updateCache s now (percentToLevel value) :=
  ⟨setSpeed_result_ok s now value actualValue, setSpeed_state_ok s now value actualValue⟩

/-- C4 counterexample: the reply `"2abc"` has a first field that is not
a valid integer, yet the dispatch resolves with 2 instead of failing
with the invalid-response error, because `parseInt` takes the longest
digit prefix. -/
theorem c4_counterexample :
    specIsValidInteger (firstField "2abc") = false ∧
    (sendCommand 3 200 true (fun _ => .reply "2abc")).result = .value 2 ∧
    (sendCommand 3 200 true (fun _ => .reply "2abc")).result ≠
      .error .invalidResponse := by
  refine ⟨by decide, by decide, by decide⟩

/-- C4 amended: on a reply datagram, a response-expecting dispatch
resolves with `parseInt` of the text before the first comma (trailing
comma-separated fields ignored) and fails with the invalid-response
error exactly when that `parseInt` yields NaN — i.e. when the first
field, after optional whitespace, sign and radix prefix, begins with no
digit (including empty and fully non-numeric payloads); either way it
settles on the first attempt, consuming no retry. -/
theorem c4_reply_parse (maxRetries : Nat) (retryDelay : Int)
    (env : Nat → AttemptOutcome) (msg : String) (h : env 0 = .reply msg) :
    (∀ v, jsParseInt (firstField msg) = some v →
      sendCommand maxRetries retryDelay true env =
        { result := .value v, sendCount := 1, delays := [] }) ∧
    (jsParseInt (firstField msg) = none →
      sendCommand maxRetries retryDelay true env =
        { result := .error .invalidResponse, sendCount := 1, delays := [] }) := by
  constructor
  · intro v hv
    unfold sendCommand sendCommandAux
    rw [h]
    simp [parseResponse, hv]
  · intro hv
    unfold sendCommand sendCommandAux
    rw [h]
    simp [parseResponse, hv]

/-- C4 witness: the reply `"2,extra"` resolves to 2 on the first
attempt, and the reply `"x"` fails as invalid on the first attempt. -/
theorem c4_reply_parse_witness :
    sendCommand 3 200 true (fun _ => .reply "2,extra") =
      { result := .value 2, sendCount := 1, delays := [] } ∧
    sendCommand 3 200 true (fun _ => .reply "x") =
      { result := .error .invalidResponse, sendCount := 1, delays := [] } :=
  ⟨(c4_reply_parse 3 200 (fun _ => .reply "2,extra") "2,extra" rfl).1 2 (by decide),
    (c4_reply_parse 3 200 (fun _ => .reply "x") "x" rfl).2 (by decide)⟩

/-- C5: for both `getSpeed` and `getActive` — a cache written less than
`cacheTimeout` ago holding a value is served with no network query; a
live-query failure is masked by the cached value whenever one exists;
and an error reaches the callback only when no cached value exists. -/
theorem c5_cache_policy (cacheTimeout : Int) (s : FanState) (now : Int)
    (live : Except DispatchError Int) :
    (∀ v, now - s.lastUpdate < cacheTimeout → s.cachedSpeed = some v →
      (getSpeed cacheTimeout s now live).result = .ok ((v : ℚ) * perUnit) ∧
      (getSpeed cacheTimeout s now live).queried = false) ∧
    (∀ v e, live = .error e → s.cachedSpeed = some v →
      (getSpeed cacheTimeout s now live).result = .ok ((v : ℚ) * perUnit)) ∧
    (∀ e, (getSpeed cacheTimeout s now live).result = .error e →
      s.cachedSpeed = none) ∧
    (∀ a, now - s.lastUpdate < cacheTimeout → s.cachedActive = some a →
      (getActive cacheTimeout s now live).result = .ok a ∧
      (getActive cacheTimeout s now live).queried = false) ∧
    (∀ a e, live = .error e → s.cachedActive = some a →
      (getActive cacheTimeout s now live).result = .ok a) ∧
    (∀ e, (getActive cacheTimeout s now live).result = .error e →
      s.cachedActive = none) := by
  refine ⟨fun v hfresh hv => ?_, fun v e hl hv => ?_, fun e he => ?_,
    fun a hfresh ha => ?_, fun a e hl ha => ?_, fun e he => ?_⟩
  · have hb : isCacheValid cacheTimeout s now = true := by
      simpa [isCacheValid] using hfresh
    simp [getSpeed, hv, hb]
  · rcases hvalid : isCacheValid cacheTimeout s now <;>
      simp [getSpeed, hv, hvalid, hl]
  · by_contra hne
    rcases Option.ne_none_iff_exists.mp hne with ⟨v, hv⟩
    rcases hvalid : isCacheValid cacheTimeout s now <;>
      rcases live with e' | sp <;>
      simp [getSpeed, ← hv, hvalid] at he
  · have hb : isCacheValid cacheTimeout s now = true := by
      simpa [isCacheValid] using hfresh
    simp [getActive, ha, hb]
  · rcases hvalid : isCacheValid cacheTimeout s now <;>
      simp [getActive, ha, hvalid, hl]
  · by_contra hne
    rcases Option.ne_none_iff_exists.mp hne with ⟨a, ha⟩
    rcases hvalid : isCacheValid cacheTimeout s now <;>
      rcases live with e' | sp <;>
      simp [getActive, ← ha, hvalid] at he

/-- C5 witness: a cache holding speed 2 written at time 0, read at
2001 ms with a 2000 ms freshness window and a failing live query, is
served stale for both reads. -/
theorem c5_cache_policy_witness :
    (getSpeed 2000 ⟨some 2, some 1, 0⟩ 2001 (.error .timeoutExpired)).result =
      .ok ((2 : ℚ) * perUnit) ∧
    (getActive 2000 ⟨some 2, some 1, 0⟩ 2001 (.error .timeoutExpired)).result =
      .ok 1 := by
  have h := c5_cache_policy 2000 ⟨some 2, some 1, 0⟩ 2001 (.error .timeoutExpired)
  exact ⟨h.2.1 2 .timeoutExpired rfl rfl, h.2.2.2.2.1 1 .timeoutExpired rfl rfl⟩

/-- C6: `setActive(flag)` sends `f,<flag>` without awaiting a reply; for
flag 0 it caches level 0 with no status query; for flag 1 it issues a
status query and caches whatever speed the device reports. -/
theorem c6_set_active (s : FanState) (now : Int) (flag : Int)
    (live : Except DispatchError Int) (hflag : flag = 0 ∨ flag = 1) :
    (setActive s now flag live).sends = ["f," ++ toString flag] ∧
    (flag = 0 →
      (setActive s now flag live).statusQueried = false ∧
      (setActive s now flag live).state = updateCache s now 0 ∧
      (setActive s now flag live).result = .ok ()) ∧
    (flag = 1 → ∀ speed, live = .ok speed →
      (setActive s now flag live).statusQueried = true ∧
      (setActive s now flag live).state = updateCache s now speed ∧
      (setActive s now flag live).result = .ok ()) := by
  rcases hflag with h | h <;> subst h
  · exact ⟨by simp [setActive], fun _ => by simp [setActive],
      fun h1 => absurd h1 (by decide)⟩
  · refine ⟨?_, fun h0 => absurd h0 (by decide), fun _ speed hl => ?_⟩
    · rcases live with e | sp <;> simp [setActive]
    · subst hl
      simp [setActive]

/-- C6 witness: `setActive(1)` with the device resuming at speed 2 sends
`f,1`, queries status, and caches the reported speed 2. -/
theorem c6_set_active_witness :
    (setActive initState 0 1 (.ok 2)).sends = ["f," ++ toString (1 : Int)] ∧
    (setActive initState 0 1 (.ok 2)).statusQueried = true ∧
    (setActive initState 0 1 (.ok 2)).state.cachedSpeed = some 2 := by
  have h := c6_set_active initState 0 1 (.ok 2) (Or.inr rfl)
  have h1 := (h.2.2 rfl 2 rfl).1
  have h2 := (h.2.2 rfl 2 rfl).2.1
  refine ⟨h.1, h1, ?_⟩
  rw [h2]
  rfl

/-- A fresh cache holding a speed short-circuits `getSpeed` entirely. -/
lemma getSpeed_fresh (cacheTimeout : Int) (s : FanState) (now : Int)
    (live : Except DispatchError Int) (v : Int)
    (hv : s.cachedSpeed = some v) (hb : isCacheValid cacheTimeout s now = true) :
    getSpeed cacheTimeout s now live =
      { state := s, result := .ok ((v : ℚ) * perUnit), queried := false } := by
  simp [getSpeed, hv, hb]

/-- C7: for each level in {0,1,2,3}, `setSpeed` of the level's canonical
percentage with a fault-free, confirming device followed by `getSpeed`
succeeds, serves the answer from the fresh cache, and returns a
percentage within one unit of the canonical percentage. -/
theorem c7_set_get_roundtrip (level : Int)
    (_hlevel : level = 0 ∨ level = 1 ∨ level = 2 ∨ level = 3)
    (s : FanState) (now cacheTimeout : Int) (hct : 0 < cacheTimeout)
    (live : Except DispatchError Int) :
    (setSpeed s now ((level : ℚ) * perUnit) (.ok level)).result = .ok () ∧
    (getSpeed cacheTimeout (setSpeed s now ((level : ℚ) * perUnit) (.ok level)).state
        now live).queried = false ∧
    ∃ p,
      (getSpeed cacheTimeout (setSpeed s now ((level : ℚ) * perUnit) (.ok level)).state
          now live).result = .ok p ∧
        |p - (level : ℚ) * perUnit| ≤ 1 := by
  have hstate := setSpeed_state_ok s now ((level : ℚ) * perUnit) level
  rw [percentToLevel_cancel] at hstate
  have hvalid : isCacheValid cacheTimeout (updateCache s now level) now = true := by
    simp only [isCacheValid, updateCache, sub_self, decide_eq_true_eq]
    exact hct
  have hget := getSpeed_fresh cacheTimeout (updateCache s now level) now live level
    rfl hvalid
  refine ⟨setSpeed_result_ok s now ((level : ℚ) * perUnit) level, ?_, ?_⟩
  · rw [hstate, hget]
  · rw [hstate, hget]
    exact ⟨(level : ℚ) * perUnit, rfl, by simp⟩

/-- C7 witness: level 2 round-trips through `setSpeed` and a cached
`getSpeed` with zero error. -/
theorem c7_set_get_roundtrip_witness :
    (setSpeed initState 0 ((2 : ℚ) * perUnit) (.ok 2)).result = .ok () ∧
    (getSpeed 2000 (setSpeed initState 0 ((2 : ℚ) * perUnit) (.ok 2)).state 0
        (.error .timeoutExpired)).queried = false ∧
    ∃ p,
      (getSpeed 2000 (setSpeed initState 0 ((2 : ℚ) * perUnit) (.ok 2)).state 0
          (.error .timeoutExpired)).result = .ok p ∧
        |p - (2 : ℚ) * perUnit| ≤ 1 :=
  c7_set_get_roundtrip 2 (by norm_num) initState 0 2000 (by norm_num)
    (.error .timeoutExpired)

/-- C8: every percentage in [0,100] converts to a level in {0,1,2,3},
and converting the canonical percentage of that output returns the same
output. -/
theorem c8_conversion_range_and_idempotent (q : ℚ) (h0 : 0 ≤ q) (h1 : q ≤ 100) :
    (percentToLevel q = 0 ∨ percentToLevel q = 1 ∨ percentToLevel q = 2 ∨
      percentToLevel q = 3) ∧
    percentToLevel ((percentToLevel q : ℚ) * perUnit) = percentToLevel q := by
  constructor
  · have hx0 : 0 ≤ q / perUnit := div_nonneg h0 (le_of_lt perUnit_pos)
    have hx1 : q / perUnit < 7 / 2 := by
      have hle : q / perUnit ≤ 100 / perUnit :=
        div_le_div_of_nonneg_right h1 (le_of_lt perUnit_pos)
      calc q / perUnit ≤ 100 / perUnit := hle
        _ < 7 / 2 := by norm_num [perUnit]
    have hlo : (0 : Int) ≤ percentToLevel q := by
      unfold percentToLevel jsRound
      apply Int.le_floor.mpr
      push_cast
      linarith
    have hhi : percentToLevel q < 4 := by
      unfold percentToLevel jsRound
      apply Int.floor_lt.mpr
      push_cast
      linarith
    omega
  · exact percentToLevel_cancel (percentToLevel q)

/-- C8 witness: percentage 50 converts to a level in {0,1,2,3} (namely
2) and the conversion is idempotent there. -/
theorem c8_conversion_witness :
    (percentToLevel 50 = 0 ∨ percentToLevel 50 = 1 ∨ percentToLevel 50 = 2 ∨
      percentToLevel 50 = 3) ∧
    percentToLevel ((percentToLevel 50 : ℚ) * perUnit) = percentToLevel 50 :=
  c8_conversion_range_and_idempotent 50 (by norm_num) (by norm_num)

/-- Each facade call leaves the cache either untouched or freshly
written through `updateCache`. -/
lemma applyOp_state_cases (cacheTimeout : Int) (s : FanState) (op : Op) :
    applyOp cacheTimeout s op = s ∨
      ∃ now speed, applyOp cacheTimeout s op = updateCache s now speed := by
  cases op with
  | readSpeed now live =>
    simp only [applyOp]
    unfold getSpeed
    split
    · exact Or.inl rfl
    · split
      · exact Or.inr ⟨now, _, rfl⟩
      · split
        · exact Or.inl rfl
        · exact Or.inl rfl
  | readActive now live =>
    simp only [applyOp]
    unfold getActive
    split
    · exact Or.inl rfl
    · split
      · exact Or.inr ⟨now, _, rfl⟩
      · split
        · exact Or.inl rfl
        · exact Or.inl rfl
  | writeSpeed now value statusLive =>
    simp only [applyOp]
    rcases hres : (sendCommandWithConfirmation ("s," ++ toString (percentToLevel value))
        (some (percentToLevel value)) statusLive).result with e | a
    · exact Or.inl (by simp [setSpeed, hres])
    · exact Or.inr ⟨now, percentToLevel value, by simp [setSpeed, hres]⟩
  | writeActive now value statusLive =>
    simp only [applyOp]
    unfold setActive
    split
    · exact Or.inr ⟨now, 0, rfl⟩
    · split
      · exact Or.inr ⟨now, _, rfl⟩
      · exact Or.inl rfl

/-- Coherence of the cached pair is preserved by every facade call. -/
lemma cacheCoherent_applyOp (cacheTimeout : Int) (s : FanState) (op : Op)
    (h : cacheCoherent s) : cacheCoherent (applyOp cacheTimeout s op) := by
  rcases applyOp_state_cases cacheTimeout s op with heq | ⟨now, speed, heq⟩ <;> rw [heq]
  · exact h
  · exact cacheCoherent_updateCache s now speed

/-- Coherence is preserved along any sequence of facade calls. -/
lemma cacheCoherent_foldl (cacheTimeout : Int) :
    ∀ (ops : List Op) (s : FanState), cacheCoherent s →
      cacheCoherent (ops.foldl (applyOp cacheTimeout) s)
  | [], _, h => h
  | op :: ops, s, h =>
    cacheCoherent_foldl cacheTimeout ops _ (cacheCoherent_applyOp cacheTimeout s op h)

/-- C9: after any history of facade calls from the constructor's state,
whenever the cached speed is non-null the cached active flag is 1
exactly when that speed is positive — every cache write goes through
`updateCache`, which derives the flag from the speed it writes. -/
theorem c9_cache_pair_coherent (cacheTimeout : Int) (ops : List Op) :
    cacheCoherent (runOps cacheTimeout ops) :=
  cacheCoherent_foldl cacheTimeout ops initState
    (fun v hv => by simp [initState] at hv)

/-- C9 witness: a power-on resuming at speed 2 leaves a coherent cache. -/
theorem c9_cache_pair_coherent_witness :
    cacheCoherent (runOps 2000 [.writeActive 5 1 (.ok 2)]) :=
  c9_cache_pair_coherent 2000 [.writeActive 5 1 (.ok 2)]

end UDPFan
